import Mathlib

/-!
Shallow embedding of `arangod/IResearch/IResearchLink.cpp`: the binding and
mutation-forwarding protocol between a per-collection index ("link") and an
iResearch view.  Pure data is translated directly; side effects (delegated
calls into the view, status writes on a task queue) are made explicit in the
return values; the C++ exception thrown by `batchInsert` on a missing queue is
an `Except.error`.  External collaborators whose code is not part of the
translated file (`IResearchLinkMeta`, `IResearchView`, `LogicalView`,
`TRI_vocbase_t`, `LocalTaskQueue`) are modelled at their interface boundary.
-/

/-- Error codes from the ArangoDB error header (external to the translated
file); the values are symbolic — all that matters to the translated code is
that they are pairwise distinct and that `TRI_ERROR_NO_ERROR` is the success
code. -/
abbrev ErrorCode := Nat

def TRI_ERROR_NO_ERROR : ErrorCode := 0

def TRI_ERROR_INTERNAL : ErrorCode := 4

def TRI_ERROR_BAD_PARAMETER : ErrorCode := 10

def TRI_ERROR_ARANGO_COLLECTION_NOT_LOADED : ErrorCode := 1203

def TRI_ERROR_ARANGO_VIEW_NOT_FOUND : ErrorCode := 1211

/-- Modelled from the spec: `LinkMetadata` ("IResearchLinkMeta", not part of
the translated file) is an immutable description of the indexed fields,
"structurally comparable (equality = same field set and configuration)".
The field configuration is opaque to the link, so it is an abstract payload
with decidable structural equality. -/
structure IResearchLinkMeta where
  fields : List Nat
deriving DecidableEq, Repr

/-- An opaque structured document (VPackSlice) forwarded to the view. -/
abbrev Doc := Nat

/-- An opaque transaction handle (`transaction::Methods`); the link only ever
checks it for null and passes it through. -/
structure TransactionMethods where
  tid : Nat
deriving DecidableEq, Repr

/-- The value found under the `view` key of a definition slice, as the
translated code observes it: either not a number, a number failing the
`uint64_t(getInt()) == getUInt()` round-trip (negative or out of range), or a
valid non-negative integral value `n` (`getUInt() = n`). -/
inductive NumVal
  | notNumber
  | badNumber
  | goodNumber (n : Nat)
deriving DecidableEq, Repr

/-- A link definition slice, reduced to the fields the translated code reads:
presence of the `skipViewRegistration` key, presence and value of the `view`
key, and the result of `IResearchLinkMeta::init` on the slice (`none` when the
metadata fails to parse — the parser itself is external, modelled from the
spec).  `idField`, `typeField` and `figures` record the remaining output of
`toVelocyPack`; the translated code never reads them back. -/
structure VPackLinkDef where
  skipViewRegistration : Bool
  viewField : Option NumVal
  metaInit : Option IResearchLinkMeta
  idField : Option String := none
  typeField : Option String := none
  figures : Bool := false
deriving DecidableEq, Repr

/-- A delegated single-document insert call into the view, recording the
arguments the link passes: collection id, revision id, document, metadata. -/
structure InsertCall where
  cid : Nat
  rid : Nat
  doc : Doc
  meta : IResearchLinkMeta
deriving DecidableEq, Repr

/-- A delegated removal call: keyed by collection id and revision id only. -/
structure RemoveCall where
  cid : Nat
  rid : Nat
deriving DecidableEq, Repr

/-- A delegated batch insert call: the whole batch in one call. -/
structure BatchCall where
  cid : Nat
  batch : List (Nat × Doc)
  meta : IResearchLinkMeta
deriving DecidableEq, Repr

/-- Modelled from the spec: the view capability contract consumed by the link
(`IResearchView`, not part of the translated file): an id, whether
`linkRegister` succeeds, the statuses reported for delegated insert / batch /
remove calls, and the memory/link-count figures. -/
structure IResearchView where
  id : Nat
  registerOk : Bool
  insertRes : TransactionMethods → Nat → Nat → Doc → IResearchLinkMeta → ErrorCode
  batchRes : TransactionMethods → Nat → List (Nat × Doc) → IResearchLinkMeta → ErrorCode
  removeRes : TransactionMethods → Nat → Nat → ErrorCode
  dropRes : Nat → ErrorCode
  memoryUse : Nat
  linkCount : Nat

/-- The string `IResearchView::type()` reports. -/
def iresearchViewType : String := "iresearch"

/-- Modelled from the spec: a `LogicalView` as returned by the database
lookup — a reported type string and a (possibly null) iResearch
implementation behind `getImplementation`. -/
structure LogicalView where
  ltype : String
  impl : Option IResearchView

/-- Modelled from the spec: the database capability contract — lookup of a
view by id. -/
structure TRIVocbase where
  views : List (Nat × LogicalView)

def TRIVocbase.lookupView (vb : TRIVocbase) (vid : Nat) : Option LogicalView :=
  vb.views.lookup vid

/-- Modelled from the spec: the collection capability contract — an id and a
(possibly null) owning database. -/
structure LogicalCollection where
  cid : Nat
  vocbase : Option TRIVocbase

/-- Modelled from the spec: the batch status sink (`LocalTaskQueue`); the link
only checks it for null and calls `setStatus`, which is recorded in the
operation outcome. -/
structure LocalTaskQueue where
  qid : Nat
deriving DecidableEq, Repr

/-- The link state: index id, non-owning collection reference, remembered
view id (`0` = unset), owned metadata, non-owning (nullable) bound view, and
the `unique` / `sparse` index flags. -/
structure IResearchLink where
  iid : Nat
  collection : Option LogicalCollection
  defaultId : Nat
  meta : IResearchLinkMeta
  view : Option IResearchView
  unique : Bool
  sparse : Bool

/-- Source `IResearchLink::IResearchLink`: `_defaultId(0)`, `_view(nullptr)`,
`_unique = false`, `_sparse = true`. -/
def IResearchLink.init (iid : Nat) (collection : Option LogicalCollection)
    (meta : IResearchLinkMeta) : IResearchLink :=
  { iid := iid, collection := collection, defaultId := 0, meta := meta,
    view := none, unique := false, sparse := true }

/-- Source `IResearchLink::make`: parse the metadata, then either defer (skip marker
present: validate and remember a candidate view id, no lookup) or resolve —
look the view up through the collection's database, check its reported type,
and bind only if `linkRegister` succeeds.  Every failure path of the C++
(including the catch-all for exceptions) returns `nullptr`, i.e. `none`. -/
def IResearchLink.make (iid : Nat) (collection : Option LogicalCollection)
    (definition : VPackLinkDef) : Option IResearchLink :=
  match definition.metaInit with
  | none => none
  | some meta =>
    let ptr := IResearchLink.init iid collection meta
    if definition.skipViewRegistration then
      match definition.viewField with
      | none => some ptr
      | some NumVal.notNumber => none
      | some NumVal.badNumber => none
      | some (NumVal.goodNumber n) => some { ptr with defaultId := n }
    else
      match collection, definition.viewField with
      | some coll, some identifier =>
        match coll.vocbase, identifier with
        | some vocbase, NumVal.goodNumber viewId =>
          match vocbase.lookupView viewId with
          | none => none
          | some logicalView =>
            if logicalView.ltype ≠ iresearchViewType then none
            else
              match logicalView.impl with
              | none => none
              | some view =>
                if view.registerOk then some { ptr with view := some view }
                else none
        | _, _ => none
      | _, _ => none

/-- Source `IResearchLink::insert`: collection and view required (else
`COLLECTION_NOT_LOADED`), then the transaction (else `BAD_PARAMETER`), then
delegate to the view.  The second component records the delegated call
(`none` = no delegation happened). -/
def IResearchLink.insert (link : IResearchLink) (trx : Option TransactionMethods)
    (rid : Nat) (doc : Doc) (isRollback : Bool) : ErrorCode × Option InsertCall :=
  match link.collection, link.view with
  | some coll, some view =>
    match trx with
    | none => (TRI_ERROR_BAD_PARAMETER, none)
    | some t =>
      (view.insertRes t coll.cid rid doc link.meta,
       some { cid := coll.cid, rid := rid, doc := doc, meta := link.meta })
  | _, _ => (TRI_ERROR_ARANGO_COLLECTION_NOT_LOADED, none)

/-- Source `IResearchLink::remove`: same preconditions as insert; the removal is
keyed by collection id and revision id (the document is not forwarded). -/
def IResearchLink.remove (link : IResearchLink) (trx : Option TransactionMethods)
    (rid : Nat) (doc : Doc) (isRollback : Bool) : ErrorCode × Option RemoveCall :=
  match link.collection, link.view with
  | some coll, some view =>
    match trx with
    | none => (TRI_ERROR_BAD_PARAMETER, none)
    | some t =>
      (view.removeRes t coll.cid rid, some { cid := coll.cid, rid := rid })
  | _, _ => (TRI_ERROR_ARANGO_COLLECTION_NOT_LOADED, none)

/-- Outcome of a `batchInsert` call that got past the queue-null check:
the status written to the queue by `setStatus` (`none` = no write), and the
delegated batch call (`none` = no delegation). -/
structure BatchOutcome where
  sinkWrite : Option ErrorCode
  delegated : Option BatchCall
deriving DecidableEq, Repr

/-- Source `IResearchLink::batchInsert`: a null queue throws (`Except.error`);
otherwise collection/view absence or a null transaction set an error status
on the queue with no delegation; otherwise the whole batch is delegated in
one call and `setStatus` is called iff the view reports non-success. -/
def IResearchLink.batchInsert (link : IResearchLink)
    (trx : Option TransactionMethods) (batch : List (Nat × Doc))
    (queue : Option LocalTaskQueue) : Except String BatchOutcome :=
  match queue with
  | none =>
    Except.error
      ("failed to report status during batch insert for iResearch link " ++
        toString link.iid)
  | some _ =>
    match link.collection, link.view with
    | some coll, some view =>
      match trx with
      | none =>
        Except.ok { sinkWrite := some TRI_ERROR_BAD_PARAMETER, delegated := none }
      | some t =>
        let res := view.batchRes t coll.cid batch link.meta
        Except.ok
          { sinkWrite := if res ≠ TRI_ERROR_NO_ERROR then some res else none,
            delegated := some { cid := coll.cid, batch := batch, meta := link.meta } }
    | _, _ =>
      Except.ok
        { sinkWrite := some TRI_ERROR_ARANGO_COLLECTION_NOT_LOADED, delegated := none }

/-- Source `IResearchLink::drop`: collection and view required; delegates
`drop(collection id)` to the view. -/
def IResearchLink.drop (link : IResearchLink) : ErrorCode :=
  match link.collection, link.view with
  | some coll, some view => view.dropRes coll.cid
  | _, _ => TRI_ERROR_ARANGO_COLLECTION_NOT_LOADED

/-- Source `IResearchLink::matchesDefinition`: the candidate's `view` field must
agree with the bound view in presence, and when both are present be a valid
non-negative number equal to the bound view's id; then the candidate's
metadata must parse and equal the link's own. -/
def IResearchLink.matchesDefinition (link : IResearchLink)
    (slice : VPackLinkDef) : Bool :=
  let viewOk : Bool :=
    match slice.viewField, link.view with
    | some (NumVal.goodNumber n), some view => decide (n = view.id)
    | some _, _ => false
    | none, some _ => false
    | none, none => true
  viewOk &&
    match slice.metaInit with
    | some other => decide (link.meta = other)
    | none => false

/-- Source `IResearchLink::memory`: own size plus metadata plus an amortized share
of the bound view (`memory / max 1 linkCount`); the own/metadata sizes are
opaque, so `sizeof(IResearchLink)` is a symbolic constant. -/
def sizeofIResearchLink : Nat := 64

def IResearchLinkMeta.memoryUse (meta : IResearchLinkMeta) : Nat :=
  meta.fields.length

def IResearchLink.memory (link : IResearchLink) : Nat :=
  let base := sizeofIResearchLink + link.meta.memoryUse
  match link.view with
  | some view => base + view.memoryUse / max 1 view.linkCount
  | none => base

/-- Source `IResearchLink::toVelocyPack`: opens a fresh object, writes the metadata
(`_meta.json`, whose re-parse yields the same metadata — round trip modelled
from the spec: LinkMetadata is "serializable to/from a structured document"
with structural equality), the id as a string, the type tag, and a `view`
field from the bound view's id if bound, else from `defaultId` if non-zero,
else omitted; figures are appended on request. -/
def IResearchLink.toVelocyPack (link : IResearchLink) (withFigures : Bool)
    (forPersistence : Bool) : VPackLinkDef :=
  { skipViewRegistration := false,
    viewField :=
      match link.view with
      | some view => some (NumVal.goodNumber view.id)
      | none =>
        if link.defaultId ≠ 0 then some (NumVal.goodNumber link.defaultId)
        else none,
    metaInit := some link.meta,
    idField := some (toString link.iid),
    typeField := some "iresearch",
    figures := withFigures }

/-- Source `IResearchLink::unload`: if bound, remember the view's id in `defaultId`;
clear the view reference; always report success.  Returns the new state and
the error code. -/
def IResearchLink.unload (link : IResearchLink) : IResearchLink × ErrorCode :=
  ({ link with
      defaultId :=
        match link.view with
        | some view => view.id
        | none => link.defaultId,
      view := none },
   TRI_ERROR_NO_ERROR)

/-- Source `IResearchLink::load`: a no-op reporting success. -/
def IResearchLink.load (link : IResearchLink) : IResearchLink × ErrorCode :=
  (link, TRI_ERROR_NO_ERROR)

/-- Source `EnhanceJsonIResearchLink`: parse the candidate's metadata (else
`BAD_PARAMETER`), copy over any `view` field, write the normalized metadata.
The output is the written definition (when successful). -/
def EnhanceJsonIResearchLink (definition : VPackLinkDef) (create : Bool) :
    ErrorCode × Option VPackLinkDef :=
  match definition.metaInit with
  | none => (TRI_ERROR_BAD_PARAMETER, none)
  | some meta =>
    (TRI_ERROR_NO_ERROR,
     some { skipViewRegistration := false, viewField := definition.viewField,
            metaInit := some meta })

/-- A member operation on a link, for stating invariants over operation
sequences.  `insert` / `remove` / `batchInsert` / `load` do not modify the
link's fields in the C++ (they only read them and delegate); `unload` is the
only state-changing member. -/
inductive LinkOp
  | unloadOp
  | loadOp
  | insertOp (trx : Option TransactionMethods) (rid : Nat) (doc : Doc) (isRollback : Bool)
  | removeOp (trx : Option TransactionMethods) (rid : Nat) (doc : Doc) (isRollback : Bool)
  | batchInsertOp (trx : Option TransactionMethods) (batch : List (Nat × Doc))
      (queue : Option LocalTaskQueue)

/-- The state reached after one member operation. -/
def applyOp (link : IResearchLink) : LinkOp → IResearchLink
  | LinkOp.unloadOp => link.unload.1
  | LinkOp.loadOp => (link.load).1
  | LinkOp.insertOp _ _ _ _ => link
  | LinkOp.removeOp _ _ _ _ => link
  | LinkOp.batchInsertOp _ _ _ => link

example :
    (IResearchLink.init 1 none { fields := [2] }).insert none 5 7 false =
      (TRI_ERROR_ARANGO_COLLECTION_NOT_LOADED, none) := by
  decide

/-- Claim C1: with a view id present and no skip marker, the factory either
returns null, or returns a link bound to the looked-up view; a returned link
certifies the whole lookup chain (collection and database present, valid id,
lookup hit of the expected view type, non-null implementation) and that the
view's registration call succeeded — so any failure of the chain, including a
failed `registerLink`, yields null, and the factory is a total function (no
construction failure escapes as a thrown exception). -/
theorem make_nonskip_null_or_bound (iid : Nat) (coll : Option LogicalCollection)
    (defn : VPackLinkDef) (hskip : defn.skipViewRegistration = false)
    (hvf : defn.viewField.isSome = true) :
    IResearchLink.make iid coll defn = none ∨
    ∃ c vb n lv v link,
      coll = some c ∧ c.vocbase = some vb ∧
      defn.viewField = some (NumVal.goodNumber n) ∧
      vb.lookupView n = some lv ∧ lv.ltype = iresearchViewType ∧
      lv.impl = some v ∧ v.registerOk = true ∧
      IResearchLink.make iid coll defn = some link ∧ link.view = some v := by
  cases hm : defn.metaInit with
  | none => exact Or.inl (by simp [IResearchLink.make, hm])
  | some meta =>
    cases hc : coll with
    | none => exact Or.inl (by simp [IResearchLink.make, hm, hskip])
    | some c =>
      cases hv : defn.viewField with
      | none => exact Or.inl (by simp [IResearchLink.make, hm, hskip, hv])
      | some vf =>
        cases vf with
        | notNumber =>
          exact Or.inl (by simp [IResearchLink.make, hm, hskip, hv])
        | badNumber =>
          exact Or.inl (by simp [IResearchLink.make, hm, hskip, hv])
        | goodNumber n =>
          cases hvb : c.vocbase with
          | none => exact Or.inl (by simp [IResearchLink.make, hm, hskip, hv, hvb])
          | some vb =>
            cases hl : vb.lookupView n with
            | none =>
              exact Or.inl (by simp [IResearchLink.make, hm, hskip, hv, hvb, hl])
            | some lv =>
              by_cases ht : lv.ltype = iresearchViewType
              · cases hi : lv.impl with
                | none =>
                  exact Or.inl
                    (by simp [IResearchLink.make, hm, hskip, hv, hvb, hl, ht, hi])
                | some v =>
                  by_cases hr : v.registerOk = true
                  · refine Or.inr ⟨c, vb, n, lv, v,
                      { IResearchLink.init iid (some c) meta with view := some v },
                      rfl, hvb, rfl, hl, ht, hi, hr, ?_, rfl⟩
                    simp [IResearchLink.make, hm, hskip, hv, hvb, hl, ht, hi, hr]
                  · exact Or.inl
                      (by simp [IResearchLink.make, hm, hskip, hv, hvb, hl, ht, hi, hr])
              · exact Or.inl
                  (by simp [IResearchLink.make, hm, hskip, hv, hvb, hl, ht])

/-! Concrete collaborators used by the witnesses below. -/

def exMetaA : IResearchLinkMeta := { fields := [1, 2] }

def exViewA : IResearchView :=
  { id := 5, registerOk := true,
    insertRes := fun _ c r _ _ => c + r,
    batchRes := fun _ c _ _ => c + 1,
    removeRes := fun _ c r => c + r + 1,
    dropRes := fun _ => TRI_ERROR_NO_ERROR,
    memoryUse := 128, linkCount := 1 }

def exVocbaseA : TRIVocbase :=
  { views := [(5, { ltype := iresearchViewType, impl := some exViewA })] }

def exCollA : LogicalCollection := { cid := 42, vocbase := some exVocbaseA }

def exDefnA : VPackLinkDef :=
  { skipViewRegistration := false, viewField := some (NumVal.goodNumber 5),
    metaInit := some exMetaA }

/-- A bound link over the concrete collaborators. -/
def exLinkBound : IResearchLink :=
  { iid := 1, collection := some exCollA, defaultId := 0, meta := exMetaA,
    view := some exViewA, unique := false, sparse := true }

/-- An unbound link (no collection, no view). -/
def exLinkUnbound : IResearchLink :=
  { iid := 2, collection := none, defaultId := 0, meta := exMetaA,
    view := none, unique := false, sparse := true }

/-- Witness for C1 at a concrete successful lookup/registration. -/
theorem make_nonskip_null_or_bound_witness :
    IResearchLink.make 1 (some exCollA) exDefnA = none ∨
    ∃ c vb n lv v link, (some exCollA : Option LogicalCollection) = some c ∧
      c.vocbase = some vb ∧
      exDefnA.viewField = some (NumVal.goodNumber n) ∧
      vb.lookupView n = some lv ∧ lv.ltype = iresearchViewType ∧
      lv.impl = some v ∧ v.registerOk = true ∧
      IResearchLink.make 1 (some exCollA) exDefnA = some link ∧
      link.view = some v :=
  make_nonskip_null_or_bound 1 (some exCollA) exDefnA rfl rfl

/-- Claim C2: `insert` and `remove` report `COLLECTION_NOT_LOADED` when the
collection or the view is unbound and `BAD_PARAMETER` when (bound but) the
transaction handle is null, delegating nothing in either failure case; when
bound with a transaction they delegate with the collection id, revision id,
document (insert only) and metadata, and return the view's reported status
unmodified. -/
theorem insert_remove_spec (link : IResearchLink)
    (trx : Option TransactionMethods) (rid : Nat) (doc : Doc) (rb : Bool) :
    (link.collection = none ∨ link.view = none →
      link.insert trx rid doc rb = (TRI_ERROR_ARANGO_COLLECTION_NOT_LOADED, none) ∧
      link.remove trx rid doc rb = (TRI_ERROR_ARANGO_COLLECTION_NOT_LOADED, none)) ∧
    (∀ coll view, link.collection = some coll → link.view = some view →
      (link.insert none rid doc rb = (TRI_ERROR_BAD_PARAMETER, none) ∧
       link.remove none rid doc rb = (TRI_ERROR_BAD_PARAMETER, none)) ∧
      ∀ t, trx = some t →
        link.insert trx rid doc rb =
          (view.insertRes t coll.cid rid doc link.meta,
           some { cid := coll.cid, rid := rid, doc := doc, meta := link.meta }) ∧
        link.remove trx rid doc rb =
          (view.removeRes t coll.cid rid,
           some { cid := coll.cid, rid := rid })) := by
  constructor
  · intro h
    cases hc : link.collection with
    | none => simp [IResearchLink.insert, IResearchLink.remove, hc]
    | some coll =>
      cases hv : link.view with
      | none => simp [IResearchLink.insert, IResearchLink.remove, hc, hv]
      | some view => rcases h with h | h <;> simp_all
  · intro coll view hc hv
    refine ⟨by simp [IResearchLink.insert, IResearchLink.remove, hc, hv], ?_⟩
    rintro t rfl
    simp [IResearchLink.insert, IResearchLink.remove, hc, hv]

/-- Witness for C2 at a bound link and a live transaction: the view's
(argument-dependent) statuses come back unmodified together with the
delegated calls. -/
theorem insert_remove_spec_witness :
    exLinkBound.insert (some { tid := 9 }) 5 7 false =
      (47, some { cid := 42, rid := 5, doc := 7, meta := exMetaA }) ∧
    exLinkBound.remove (some { tid := 9 }) 5 7 false =
      (48, some { cid := 42, rid := 5 }) :=
  ((insert_remove_spec exLinkBound (some { tid := 9 }) 5 7 false).2
    exCollA exViewA rfl rfl).2 { tid := 9 } rfl

/-- Claim C3: `batchInsert` with a non-null sink writes
`COLLECTION_NOT_LOADED` when unbound and `BAD_PARAMETER` when the transaction
is null, attempting no insert; otherwise it delegates the whole batch in one
call and writes a status to the sink iff the view reports non-success (on
success the sink is untouched, so an earlier recorded error is not
overwritten by this call). -/
theorem batchInsert_spec (link : IResearchLink) (batch : List (Nat × Doc))
    (q : LocalTaskQueue) :
    (link.collection = none ∨ link.view = none →
      ∀ trx, link.batchInsert trx batch (some q) =
        Except.ok { sinkWrite := some TRI_ERROR_ARANGO_COLLECTION_NOT_LOADED,
                    delegated := none }) ∧
    (∀ coll view, link.collection = some coll → link.view = some view →
      link.batchInsert none batch (some q) =
        Except.ok { sinkWrite := some TRI_ERROR_BAD_PARAMETER, delegated := none } ∧
      ∀ t, link.batchInsert (some t) batch (some q) =
          Except.ok
            { sinkWrite :=
                if view.batchRes t coll.cid batch link.meta ≠ TRI_ERROR_NO_ERROR
                then some (view.batchRes t coll.cid batch link.meta) else none,
              delegated := some { cid := coll.cid, batch := batch, meta := link.meta } } ∧
        ∀ out, link.batchInsert (some t) batch (some q) = Except.ok out →
          ((∃ c, out.sinkWrite = some c) ↔
            view.batchRes t coll.cid batch link.meta ≠ TRI_ERROR_NO_ERROR)) := by
  constructor
  · intro h trx
    cases hc : link.collection with
    | none => simp [IResearchLink.batchInsert, hc]
    | some coll =>
      cases hv : link.view with
      | none => simp [IResearchLink.batchInsert, hc, hv]
      | some view => rcases h with h | h <;> simp_all
  · intro coll view hc hv
    refine ⟨by simp [IResearchLink.batchInsert, hc, hv], ?_⟩
    intro t
    refine ⟨by simp [IResearchLink.batchInsert, hc, hv], ?_⟩
    intro out hout
    simp only [IResearchLink.batchInsert, hc, hv] at hout
    by_cases hres : view.batchRes t coll.cid batch link.meta = TRI_ERROR_NO_ERROR
    · simp [hres] at hout
      subst hout
      simp [hres]
    · simp [hres] at hout
      subst hout
      simp [hres]

/-- Witness for C3 at a bound link: the view reports status `43 ≠ 0` for the
batch, which lands on the sink together with the single whole-batch call. -/
theorem batchInsert_spec_witness :
    exLinkBound.batchInsert (some { tid := 9 }) [(5, 7), (6, 8)] (some { qid := 0 }) =
      Except.ok
        { sinkWrite := some 43,
          delegated := some { cid := 42, batch := [(5, 7), (6, 8)], meta := exMetaA } } := by
  have h :=
    (((batchInsert_spec exLinkBound [(5, 7), (6, 8)] { qid := 0 }).2
      exCollA exViewA rfl rfl).2 { tid := 9 }).1
  simpa using h

/-- Claim C8: `batchInsert` with a null sink throws (modelled as
`Except.error`) rather than returning a status, and no sink write or view
delegation occurs (no `BatchOutcome` is produced at all). -/
theorem batchInsert_null_queue (link : IResearchLink)
    (trx : Option TransactionMethods) (batch : List (Nat × Doc)) :
    (∃ msg, link.batchInsert trx batch none = Except.error msg) ∧
    ∀ out, link.batchInsert trx batch none ≠ Except.ok out := by
  refine ⟨⟨_, rfl⟩, ?_⟩
  intro out h
  simp [IResearchLink.batchInsert] at h

/-- Claim C10: when the link is unbound and the transaction handle is null at
the same time, all three operations report `COLLECTION_NOT_LOADED`, not
`BAD_PARAMETER`: the bound-state check precedes the transaction check. -/
theorem unbound_precedes_null_trx (link : IResearchLink) (rid : Nat)
    (doc : Doc) (rb : Bool) (batch : List (Nat × Doc)) (q : LocalTaskQueue)
    (h : link.collection = none ∨ link.view = none) :
    (link.insert none rid doc rb).1 = TRI_ERROR_ARANGO_COLLECTION_NOT_LOADED ∧
    (link.remove none rid doc rb).1 = TRI_ERROR_ARANGO_COLLECTION_NOT_LOADED ∧
    link.batchInsert none batch (some q) =
      Except.ok { sinkWrite := some TRI_ERROR_ARANGO_COLLECTION_NOT_LOADED,
                  delegated := none } ∧
    TRI_ERROR_ARANGO_COLLECTION_NOT_LOADED ≠ TRI_ERROR_BAD_PARAMETER := by
  have hcn : TRI_ERROR_ARANGO_COLLECTION_NOT_LOADED ≠ TRI_ERROR_BAD_PARAMETER := by
    decide
  cases hc : link.collection with
  | none =>
    simp [IResearchLink.insert, IResearchLink.remove, IResearchLink.batchInsert,
      hc, hcn]
  | some coll =>
    cases hv : link.view with
    | none =>
      simp [IResearchLink.insert, IResearchLink.remove, IResearchLink.batchInsert,
        hc, hv, hcn]
    | some view => rcases h with h | h <;> simp_all

/-- Claim C4: `matchesDefinition` returns true iff the candidate's view field
and the bound view agree on presence (both absent matches; exactly one
present does not), with a present pair requiring a valid non-negative number
equal to the bound view's id, and the candidate's metadata parses and is
structurally equal to the link's own. -/
theorem matchesDefinition_iff (link : IResearchLink) (slice : VPackLinkDef) :
    link.matchesDefinition slice = true ↔
      ((slice.viewField = none ∧ link.view = none) ∨
        ∃ n view, slice.viewField = some (NumVal.goodNumber n) ∧
          link.view = some view ∧ n = view.id) ∧
      ∃ other, slice.metaInit = some other ∧ link.meta = other := by
  cases hv : slice.viewField with
  | none =>
    cases hl : link.view with
    | none =>
      cases hm : slice.metaInit with
      | none => simp [IResearchLink.matchesDefinition, hv, hl, hm]
      | some other =>
        simp [IResearchLink.matchesDefinition, hv, hl, hm]
    | some view => simp [IResearchLink.matchesDefinition, hv, hl]
  | some vf =>
    cases hl : link.view with
    | none => cases vf <;> simp [IResearchLink.matchesDefinition, hv, hl]
    | some view =>
      cases vf with
      | notNumber => simp [IResearchLink.matchesDefinition, hv, hl]
      | badNumber => simp [IResearchLink.matchesDefinition, hv, hl]
      | goodNumber n =>
        cases hm : slice.metaInit with
        | none => simp [IResearchLink.matchesDefinition, hv, hl, hm]
        | some other =>
          simp [IResearchLink.matchesDefinition, hv, hl, hm]

/-- The deferred definition used to refute the universal reflexivity claim:
skip marker set, candidate view id 9 — `make` yields an unbound link whose
`defaultId` is 9. -/
def reflexCexDefn : VPackLinkDef :=
  { skipViewRegistration := true, viewField := some (NumVal.goodNumber 9),
    metaInit := some { fields := [3] } }

/-- Counterexample to Claim C5 as stated: the unbound link with remembered
`defaultId = 9` produced by `make` serializes a view field, but
`matchesDefinition` rejects any candidate carrying a view field when no view
is bound — so the link does not match its own serialization. -/
theorem matchesDefinition_reflexive_cex :
    (IResearchLink.make 1 none reflexCexDefn).map
      (fun link => link.matchesDefinition (link.toVelocyPack false false)) =
      some false := by
  decide

/-- Claim C5 (amended): `matchesDefinition` is reflexive with respect to
`toVelocyPack` for every link that is bound to a view or has no remembered
`defaultId`; an unbound link with a non-zero `defaultId` does not match its
own serialization. -/
theorem matchesDefinition_reflexive (link : IResearchLink)
    (h : link.view = none → link.defaultId = 0) (wf fp : Bool) :
    link.matchesDefinition (link.toVelocyPack wf fp) = true := by
  cases hl : link.view with
  | none =>
    simp [IResearchLink.matchesDefinition, IResearchLink.toVelocyPack, hl, h hl]
  | some view =>
    simp [IResearchLink.matchesDefinition, IResearchLink.toVelocyPack, hl]

/-- Witness for amended C5 at a freshly constructed (unbound, `defaultId 0`)
link and at the concrete bound link. -/
theorem matchesDefinition_reflexive_witness :
    (IResearchLink.init 3 none exMetaA).matchesDefinition
      ((IResearchLink.init 3 none exMetaA).toVelocyPack false false) = true ∧
    exLinkBound.matchesDefinition (exLinkBound.toVelocyPack true false) = true :=
  ⟨matchesDefinition_reflexive (IResearchLink.init 3 none exMetaA)
      (fun _ => rfl) false false,
   matchesDefinition_reflexive exLinkBound
      (fun hc => absurd hc (by simp [exLinkBound])) true false⟩

/-- Claim C6: `unload` on a bound link snapshots the bound view's id into
`defaultId` before clearing the reference, always reports success, is
idempotent, and a subsequent `toVelocyPack` reports the id that was bound
right before the unload (the view's id being non-zero, since 0 is never a
valid id). -/
theorem unload_spec (link : IResearchLink) (v : IResearchView)
    (hv : link.view = some v) (h0 : v.id ≠ 0) (wf fp : Bool) :
    link.unload.2 = TRI_ERROR_NO_ERROR ∧
    link.unload.1.view = none ∧
    link.unload.1.defaultId = v.id ∧
    link.unload.1.unload = link.unload ∧
    (link.unload.1.toVelocyPack wf fp).viewField =
      some (NumVal.goodNumber v.id) := by
  simp [IResearchLink.unload, IResearchLink.toVelocyPack, hv, h0]

/-- Witness for C6 at the concrete bound link (view id 5). -/
theorem unload_spec_witness :
    exLinkBound.unload.2 = TRI_ERROR_NO_ERROR ∧
    exLinkBound.unload.1.view = none ∧
    exLinkBound.unload.1.defaultId = exViewA.id ∧
    exLinkBound.unload.1.unload = exLinkBound.unload ∧
    (exLinkBound.unload.1.toVelocyPack false false).viewField =
      some (NumVal.goodNumber exViewA.id) :=
  unload_spec exLinkBound exViewA rfl (by decide) false false

/-- Claim C7: with the skip marker set, construction follows the deferred
path: the outcome is fully determined by the definition alone — a missing
view id defers with `defaultId` untouched, a valid non-negative id is stored
as `defaultId`, an invalid one yields null, and the link is never bound (the
characterization consults no database lookup); accordingly, replacing the
collection's database changes nothing but the stored collection handle. -/
theorem make_skip_spec (iid : Nat) (coll : Option LogicalCollection)
    (defn : VPackLinkDef) (hskip : defn.skipViewRegistration = true) :
    (IResearchLink.make iid coll defn =
      match defn.metaInit with
      | none => none
      | some meta =>
        match defn.viewField with
        | none => some (IResearchLink.init iid coll meta)
        | some (NumVal.goodNumber n) =>
            some { IResearchLink.init iid coll meta with defaultId := n }
        | some _ => none) ∧
    ∀ c vb, IResearchLink.make iid (some { c with vocbase := vb }) defn =
      (IResearchLink.make iid (some c) defn).map
        (fun link => { link with collection := some { c with vocbase := vb } }) := by
  constructor
  · cases hm : defn.metaInit with
    | none => simp [IResearchLink.make, hm]
    | some meta =>
      cases hv : defn.viewField with
      | none => simp [IResearchLink.make, hm, hskip, hv]
      | some vf => cases vf <;> simp [IResearchLink.make, hm, hskip, hv]
  · intro c vb
    cases hm : defn.metaInit with
    | none => simp [IResearchLink.make, hm]
    | some meta =>
      cases hv : defn.viewField with
      | none => simp [IResearchLink.make, hm, hskip, hv, IResearchLink.init]
      | some vf =>
        cases vf <;> simp [IResearchLink.make, hm, hskip, hv, IResearchLink.init]

/-- Witness for C7 at the concrete deferred definition with candidate id 9:
the constructed link is unbound with `defaultId = 9`, whatever the database
holds. -/
theorem make_skip_spec_witness :
    IResearchLink.make 1 (some exCollA) reflexCexDefn =
      some { IResearchLink.init 1 (some exCollA) { fields := [3] } with
              defaultId := 9 } ∧
    IResearchLink.make 1 (some { exCollA with vocbase := none }) reflexCexDefn =
      (IResearchLink.make 1 (some exCollA) reflexCexDefn).map
        (fun link => { link with
                        collection := some { exCollA with vocbase := none } }) :=
  ⟨(make_skip_spec 1 (some exCollA) reflexCexDefn rfl).1,
   (make_skip_spec 1 (some exCollA) reflexCexDefn rfl).2 exCollA none⟩

/-- Witness for C10 at a concrete link with neither collection nor view. -/
theorem unbound_precedes_null_trx_witness :
    (exLinkUnbound.insert none 5 7 false).1 =
      TRI_ERROR_ARANGO_COLLECTION_NOT_LOADED ∧
    (exLinkUnbound.remove none 5 7 false).1 =
      TRI_ERROR_ARANGO_COLLECTION_NOT_LOADED ∧
    exLinkUnbound.batchInsert none [(5, 7)] (some { qid := 0 }) =
      Except.ok { sinkWrite := some TRI_ERROR_ARANGO_COLLECTION_NOT_LOADED,
                  delegated := none } ∧
    TRI_ERROR_ARANGO_COLLECTION_NOT_LOADED ≠ TRI_ERROR_BAD_PARAMETER :=
  unbound_precedes_null_trx exLinkUnbound 5 7 false [(5, 7)] { qid := 0 }
    (Or.inl rfl)

/-- The state after a sequence of member operations. -/
def runOps (link : IResearchLink) (ops : List LinkOp) : IResearchLink :=
  ops.foldl applyOp link

/-- No member operation changes the `unique` / `sparse` flags. -/
theorem applyOp_flags (link : IResearchLink) (op : LinkOp) :
    (applyOp link op).unique = link.unique ∧
    (applyOp link op).sparse = link.sparse := by
  cases op <;> simp [applyOp, IResearchLink.unload, IResearchLink.load]

theorem runOps_flags (ops : List LinkOp) (link : IResearchLink) :
    (runOps link ops).unique = link.unique ∧
    (runOps link ops).sparse = link.sparse := by
  induction ops generalizing link with
  | nil => exact ⟨rfl, rfl⟩
  | cons op ops ih =>
    have h1 := applyOp_flags link op
    have h2 := ih (applyOp link op)
    exact ⟨h2.1.trans h1.1, h2.2.trans h1.2⟩

/-- Every link the factory returns has `unique = false` and `sparse = true`
(set in the constructor, untouched afterwards). -/
theorem make_flags (iid : Nat) (coll : Option LogicalCollection)
    (defn : VPackLinkDef) (link : IResearchLink)
    (h : IResearchLink.make iid coll defn = some link) :
    link.unique = false ∧ link.sparse = true := by
  unfold IResearchLink.make at h
  simp only [] at h
  repeat' split at h
  all_goals
    first
    | exact Option.noConfusion h
    | (injection h with h; subst h; exact ⟨rfl, rfl⟩)

/-- Claim C9: along every operation sequence from a constructed link,
`unique` stays false and `sparse` stays true, and serialization has one
authoritative view-id source: a bound view's id wins (whatever `defaultId`
holds), an unbound link serializes the non-zero `defaultId`, and omits the
view field when `defaultId` is 0. -/
theorem link_invariants (iid : Nat) (coll : Option LogicalCollection)
    (defn : VPackLinkDef) (link : IResearchLink) (ops : List LinkOp)
    (h : IResearchLink.make iid coll defn = some link) (wf fp : Bool) :
    (runOps link ops).unique = false ∧
    (runOps link ops).sparse = true ∧
    (∀ v, (runOps link ops).view = some v →
      ((runOps link ops).toVelocyPack wf fp).viewField =
        some (NumVal.goodNumber v.id)) ∧
    ((runOps link ops).view = none → (runOps link ops).defaultId ≠ 0 →
      ((runOps link ops).toVelocyPack wf fp).viewField =
        some (NumVal.goodNumber (runOps link ops).defaultId)) ∧
    ((runOps link ops).view = none → (runOps link ops).defaultId = 0 →
      ((runOps link ops).toVelocyPack wf fp).viewField = none) := by
  obtain ⟨hu, hs⟩ := make_flags iid coll defn link h
  obtain ⟨hu2, hs2⟩ := runOps_flags ops link
  refine ⟨hu2.trans hu, hs2.trans hs, ?_, ?_, ?_⟩
  · intro v hv
    simp [IResearchLink.toVelocyPack, hv]
  · intro hv hd
    simp [IResearchLink.toVelocyPack, hv, hd]
  · intro hv hd
    simp [IResearchLink.toVelocyPack, hv, hd]

/-- The deferred link used by the C9 witness. -/
def linkW : IResearchLink :=
  { IResearchLink.init 1 none { fields := [3] } with defaultId := 9 }

def opsW : List LinkOp :=
  [LinkOp.unloadOp, LinkOp.loadOp, LinkOp.insertOp none 1 2 false]

/-- Witness for C9 on the concrete deferred link after an
unload/load/insert sequence. -/
theorem link_invariants_witness :
    (runOps linkW opsW).unique = false ∧
    (runOps linkW opsW).sparse = true ∧
    (∀ v, (runOps linkW opsW).view = some v →
      ((runOps linkW opsW).toVelocyPack false false).viewField =
        some (NumVal.goodNumber v.id)) ∧
    ((runOps linkW opsW).view = none → (runOps linkW opsW).defaultId ≠ 0 →
      ((runOps linkW opsW).toVelocyPack false false).viewField =
        some (NumVal.goodNumber (runOps linkW opsW).defaultId)) ∧
    ((runOps linkW opsW).view = none → (runOps linkW opsW).defaultId = 0 →
      ((runOps linkW opsW).toVelocyPack false false).viewField = none) :=
  link_invariants 1 none reflexCexDefn linkW opsW rfl false false
